import Mathlib

set_option maxHeartbeats 1000000

/-
Shallow embedding of src/reroll_nodes.py (class NodeReroller and main).

Remote calls (Kubernetes API, EC2 API) are modelled by explicit inputs:
a call that may raise ApiException is an `Except Unit` value (`.error ()`
standing for the raised ApiException), and the polling loops over wall-clock
time are modelled by the finite list of listings the loop would observe, the
exhaustion of the list standing for the timeout elapsing.  Python `None` is
`Option.none`; Python dicts are association lists with unique keys, looked
up first-match.  A Python `TypeError` raised by iterating `None` is the
explicit error value `PyError.typeError`, distinct from ApiException so that
`except ApiException` handlers visibly do not catch it.
-/

/-- One entry of a node's `status.conditions` list. -/
structure NodeCondition where
  type : String
  status : String
  deriving DecidableEq

/-- One entry of a node's `status.addresses` list. -/
structure NodeAddress where
  type : String
  address : String
  deriving DecidableEq

/-- A Kubernetes `V1Node` restricted to the fields `reroll_nodes.py` reads.
`labels`, `annotations`, `addresses` and `conditions` are `Option` because
the Python client returns `None` for absent collections (the code guards
some of these with `or {}` / truthiness and not others). -/
structure V1Node where
  name : String
  labels : Option (List (String × String))
  annotations : Option (List (String × String))
  providerId : Option String
  addresses : Option (List NodeAddress)
  conditions : Option (List NodeCondition)
  deriving DecidableEq

/-- One entry of a pod's `metadata.owner_references` list. -/
structure OwnerReference where
  kind : String
  deriving DecidableEq

/-- A Kubernetes `V1Pod` restricted to the fields `drain_node` reads. -/
structure V1Pod where
  ns : String
  name : String
  deletionTimestamp : Option String
  ownerReferences : Option (List OwnerReference)
  annotations : Option (List (String × String))
  deriving DecidableEq

/-- Python `d.get(k)` on a dict: `some` value of the first binding of `k`,
`none` when the key is absent. -/
def dictFind (d : List (String × String)) (k : String) : Option String :=
  (d.find? (fun p => p.1 == k)).map (fun p => p.2)

/-- Python `d.get(k, dflt)`. -/
def dictGetD (d : List (String × String)) (k : String) (dflt : String) : String :=
  (dictFind d k).getD dflt

/-- Python `k in d` on a dict. -/
def dictHasKey (d : List (String × String)) (k : String) : Bool :=
  (dictFind d k).isSome

/-- Python `s.strip()`: drop whitespace from both ends.  (Defined over the
character list so that it evaluates by kernel reduction; the standard
library trim is equivalent but does not reduce.) -/
def pyStrip (s : String) : String :=
  ⟨((s.data.dropWhile Char.isWhitespace).reverse.dropWhile
      Char.isWhitespace).reverse⟩

/-- Python `s.startswith(pre)`.  (Reducible counterpart of the standard
library test, defined over the character lists.) -/
def pyStartsWith (s pre : String) : Bool :=
  pre.data.isPrefixOf s.data

/-- Split a character list at every occurrence of `sep`. -/
def splitChar (sep : Char) : List Char → List (List Char)
  | [] => [[]]
  | ch :: rest =>
    match splitChar sep rest with
    | [] => [[]]
    | cur :: tail =>
      if ch == sep then [] :: cur :: tail else (ch :: cur) :: tail

/-- Python `s.split(sep)` for a one-character separator. -/
def pySplitOn (s : String) (sep : Char) : List String :=
  (splitChar sep s.data).map String.mk

/-- NodeReroller.get_karpenter_nodes (src/reroll_nodes.py lines 90-119),
applied to the successful result of `core_v1.list_node().items`.  The
ApiException branch (`sys.exit(1)`) is outside the claims settled here and
is not modelled.  The recursion mirrors the Python `for` loop with its
`continue` and the nested `if self.selector:` test. -/
def get_karpenter_nodes (selector : List (String × String)) :
    List V1Node → List V1Node
  | [] => []
  | node :: rest =>
    let labels := node.labels.getD []
    let v1beta1 := pyStrip (dictGetD labels "karpenter.sh/nodepool" "")
    let v1alpha5 := pyStrip (dictGetD labels "karpenter.sh/provisioner-name" "")
    if v1beta1.data.isEmpty && v1alpha5.data.isEmpty then
      get_karpenter_nodes selector rest
    else if !selector.isEmpty then
      if selector.all (fun kv => dictFind labels kv.1 == some kv.2) then
        node :: get_karpenter_nodes selector rest
      else
        get_karpenter_nodes selector rest
    else
      node :: get_karpenter_nodes selector rest

/-- A node carries a provisioner-managed marker: one of the two accepted
label names is non-empty after whitespace trimming. -/
def hasProvisionerMarker (n : V1Node) : Bool :=
  let labels := n.labels.getD []
  !((pyStrip (dictGetD labels "karpenter.sh/nodepool" "")).data.isEmpty) ||
  !((pyStrip (dictGetD labels "karpenter.sh/provisioner-name" "")).data.isEmpty)

/-- Exact-match criteria test: every selector key must be present with
exactly the required value (`labels.get(k) == v`). -/
def matchesSelector (selector : List (String × String)) (n : V1Node) : Bool :=
  selector.all (fun kv => dictFind (n.labels.getD []) kv.1 == some kv.2)

/-- The selector `main` builds from a `--nodepool POOL` argument with no
extra `--label` arguments (src/reroll_nodes.py lines 672-676): only the
v1beta1 key `karpenter.sh/nodepool` is inserted. -/
def selectorFromNodepool (pool : String) : List (String × String) :=
  [("karpenter.sh/nodepool", pool)]

/-- A Python exception that is not an ApiException (here: the `TypeError`
raised by iterating over `None`). -/
inductive PyError
  | typeError
  deriving DecidableEq

/-- The readiness test the script repeats at three sites:
`any(condition.type == "Ready" and condition.status == "True" for condition
in node.status.conditions)`.  When `status.conditions` is `None` the Python
`for` raises `TypeError`. -/
def nodeReadyE (n : V1Node) : Except PyError Bool :=
  match n.conditions with
  | none => .error .typeError
  | some cs => .ok (cs.any (fun c => c.type == "Ready" && c.status == "True"))

/-- The ready-node count `sum(1 for node in nodes if any(...))`, evaluating
nodes left to right and propagating the `TypeError` of a `None` conditions
collection. -/
def readyCountE : List V1Node → Except PyError Nat
  | [] => .ok 0
  | n :: rest =>
    match nodeReadyE n with
    | .error e => .error e
    | .ok b =>
      match readyCountE rest with
      | .error e => .error e
      | .ok k => .ok (if b then k + 1 else k)

/-- NodeReroller.check_cluster_health (src/reroll_nodes.py lines 153-173).
The input is the outcome of `core_v1.list_node()`: `.error ()` stands for a
raised ApiException, which the `except ApiException` clause converts to
`False`.  A `TypeError` from the ready count is not an ApiException and
propagates to the caller. -/
def check_cluster_health (listResult : Except Unit (List V1Node)) :
    Except PyError Bool :=
  match listResult with
  | .error _ => .ok false
  | .ok nodes =>
    match readyCountE nodes with
    | .error e => .error e
    | .ok r => .ok (if r < 2 then false else true)

/-- Polling body of NodeReroller.wait_for_replacement (src/reroll_nodes.py
lines 433-448): each element of `polls` is one `get_karpenter_nodes()`
result observed during the loop; an exhausted list is the `max_wait`
timeout.  There is no `try` in this function, so a `TypeError` propagates. -/
def waitReplacementLoop (originalCount : Nat) :
    List (List V1Node) → Except PyError Bool
  | [] => .ok false
  | ns :: rest =>
    match readyCountE ns with
    | .error e => .error e
    | .ok r =>
      if originalCount ≤ r then .ok true
      else waitReplacementLoop originalCount rest

/-- NodeReroller.wait_for_replacement (src/reroll_nodes.py lines 422-451). -/
def wait_for_replacement (dryRun : Bool) (originalCount : Nat)
    (polls : List (List V1Node)) : Except PyError Bool :=
  if dryRun then .ok true
  else waitReplacementLoop originalCount polls

/-- Outcome of one `create_namespaced_pod_eviction` call: success, or a
raised ApiException with its HTTP status (429 = Too Many Requests, the
disruption-budget rejection). -/
inductive EvictOutcome
  | success
  | apiException (status : Nat)
  deriving DecidableEq

/-- Log lines the eviction loop of drain_node can emit. -/
inductive DrainLog
  | evictedDebug (ns name : String)
  | pdbPreventedWarning (ns name : String)
  | evictFailedWarning (ns name : String)
  deriving DecidableEq

/-- Body of the per-pod eviction `try/except ApiException` block
(src/reroll_nodes.py lines 241-261): every raised ApiException is caught;
status 429 yields the PodDisruptionBudget warning, anything else the
generic eviction-failure warning.  Nothing escapes to the caller. -/
def evictPod (outcome : EvictOutcome) (p : V1Pod) : DrainLog :=
  match outcome with
  | .success => .evictedDebug p.ns p.name
  | .apiException s =>
    if s == 429 then .pdbPreventedWarning p.ns p.name
    else .evictFailedWarning p.ns p.name

/-- The pod filter building `pods_to_evict` (src/reroll_nodes.py lines
207-227): skip pods already terminating, pods owned by a DaemonSet, and
mirror (static) pods; the recursion mirrors the loop with its three
`continue`s. -/
def podsToEvictOf : List V1Pod → List V1Pod
  | [] => []
  | pod :: rest =>
    if pod.deletionTimestamp.isSome then podsToEvictOf rest
    else if (pod.ownerReferences.getD []).any (fun r => r.kind == "DaemonSet") then
      podsToEvictOf rest
    else if (match pod.annotations with
             | some anns => dictHasKey anns "kubernetes.io/config.mirror"
             | none => false) then
      podsToEvictOf rest
    else
      pod :: podsToEvictOf rest

/-- The filter of the post-eviction polling loop (src/reroll_nodes.py lines
271-280): it drops DaemonSet-owned and mirror pods but — unlike the
eviction filter — keeps pods that merely have a deletion timestamp. -/
def keepInPollFilter (p : V1Pod) : Bool :=
  !((p.ownerReferences.getD []).any (fun r => r.kind == "DaemonSet")) &&
  !(match p.annotations with
    | some anns => dictHasKey anns "kubernetes.io/config.mirror"
    | none => false)

/-- The `while time.time() - start_time < self.drain_timeout` polling loop
(src/reroll_nodes.py lines 263-292).  Each element of `polls` is the
outcome of one re-listing; `.error ()` is an ApiException, which the outer
`except ApiException` turns into `return False`; an exhausted list is the
drain timeout (`return False` at line 292). -/
def drainPollLoop : List (Except Unit (List V1Pod)) → Bool
  | [] => false
  | .error _ :: _ => false
  | .ok l :: rest =>
    if (l.filter keepInPollFilter).isEmpty then true
    else drainPollLoop rest

/-- NodeReroller.drain_node (src/reroll_nodes.py lines 190-296).  Inputs:
the dry-run flag, the outcome of the initial pod listing, the outcome of
each eviction call, and the successive re-listings seen by the polling
loop.  Returns the boolean result, the (namespace, name) pairs for which an
eviction request was issued, and the log lines of the eviction loop. -/
def drain_node (dryRun : Bool) (listPods : Except Unit (List V1Pod))
    (evictOutcome : V1Pod → EvictOutcome)
    (polls : List (Except Unit (List V1Pod))) :
    Bool × List (String × String) × List DrainLog :=
  if dryRun then (true, [], [])
  else
    match listPods with
    | .error _ => (false, [], [])
    | .ok pods =>
      let podsToEvict := podsToEvictOf pods
      if podsToEvict.isEmpty then (true, [], [])
      else
        let evictions := podsToEvict.map (fun p => (p.ns, p.name))
        let logs := podsToEvict.map (fun p => evictPod (evictOutcome p) p)
        (drainPollLoop polls, evictions, logs)

/-- Outcome of the `ec2_client.terminate_instances` call: a successful
response with its `TerminatingInstances` list (previous/current state name
pairs), a raised botocore ClientError with its error code, or any other
raised exception. -/
inductive TerminateApiResult
  | ok (terminating : List (String × String))
  | clientError (code : String)
  | otherError
  deriving DecidableEq

/-- Log lines terminate_ec2_instance can emit. -/
inductive TermLog
  | dryRunInfo
  | terminatedInfo (prev curr : String)
  | notFoundWarning
  | unauthorizedError
  | terminateFailedError
  | unexpectedErrorLog
  deriving DecidableEq

/-- NodeReroller.terminate_ec2_instance (src/reroll_nodes.py lines
350-390).  Both `except` clauses catch everything the call can raise, so
the function always returns; note that every `except` branch — including
the `InvalidInstanceID.NotFound` one, which logs only a warning — falls
through to `return False`. -/
def terminate_ec2_instance (hasEc2Client dryRun : Bool)
    (api : TerminateApiResult) : Bool × List TermLog :=
  if !hasEc2Client then (false, [])
  else if dryRun then (true, [.dryRunInfo])
  else
    match api with
    | .ok terminating =>
      match terminating with
      | [] => (false, [])
      | t :: _ => (true, [.terminatedInfo t.1 t.2])
    | .clientError code =>
      if code == "InvalidInstanceID.NotFound" then (false, [.notFoundWarning])
      else if code == "UnauthorizedOperation" then (false, [.unauthorizedError])
      else (false, [.terminateFailedError])
    | .otherError => (false, [.unexpectedErrorLog])

/-- Remote mutating or waiting steps issued during the per-node lifecycle,
in issue order.  `cordonApi` is the `patch_node` call, `drainStep` the
drain_node invocation, `deleteNodeApi` the `core_v1.delete_node` call,
`terminateApi` the `terminate_instances` call, `waitReplacement` the
wait_for_replacement invocation, `sleepBetween` the inter-node pause. -/
inductive Event
  | cordonApi (name : String)
  | drainStep (name : String)
  | deleteNodeApi (name : String)
  | terminateApi (instanceId : String)
  | waitReplacement
  | sleepBetween
  deriving DecidableEq

/-- NodeReroller.delete_node (src/reroll_nodes.py lines 392-420).
`k8sDeleteOk` is the outcome of the `core_v1.delete_node` call (False = the
caught ApiException branch), `instId` the result of
get_instance_id_from_node, `termApi` the EC2 response.  The Kubernetes node
is deleted first; only when that succeeded — and EC2 termination is neither
skipped nor without a client — is the instance resolved and terminated, and
the boolean result of terminate_ec2_instance is discarded
(`return True` regardless, line 420). -/
def delete_node (dryRun skipEc2 hasEc2 : Bool) (k8sDeleteOk : Bool)
    (instId : Option String) (termApi : TerminateApiResult) (name : String) :
    Bool × List Event :=
  if dryRun then (true, [])
  else
    if !k8sDeleteOk then (false, [.deleteNodeApi name])
    else
      let tailEvents : List Event :=
        if !skipEc2 && hasEc2 then
          match instId with
          | some i =>
            let _discarded := terminate_ec2_instance hasEc2 dryRun termApi
            [.terminateApi i]
          | none => []
        else []
      (true, .deleteNodeApi name :: tailEvents)

/-- NodeReroller.reroll_node (src/reroll_nodes.py lines 453-491).  The
boolean oracles are the reported results of the four steps: `cordonOk` is
logged but never gates (line 469-470), a failed drain (`drainOk = false`)
or a failed delete stops the lifecycle with result False, the
wait_for_replacement result `waitOk` is logged only, and the inter-node
sleep happens unless `skipWait` is set or `waitBetween` is zero. -/
def reroll_node (dryRun skipEc2 hasEc2 : Bool)
    (cordonOk drainOk k8sDeleteOk waitOk skipWait : Bool)
    (waitBetween : Nat) (instId : Option String)
    (termApi : TerminateApiResult) (name : String) : Bool × List Event :=
  let cordonEvs : List Event := if dryRun then [] else [.cordonApi name]
  let drainResult := if dryRun then true else drainOk
  let drainEvs : List Event := if dryRun then [] else [.drainStep name]
  if !drainResult then (false, cordonEvs ++ drainEvs)
  else
    let del := delete_node dryRun skipEc2 hasEc2 k8sDeleteOk instId termApi name
    if !del.1 then (false, cordonEvs ++ drainEvs ++ del.2)
    else
      let sleepEvs : List Event :=
        if !skipWait && decide (0 < waitBetween) then [.sleepBetween] else []
      (true, cordonEvs ++ drainEvs ++ del.2 ++ [.waitReplacement] ++ sleepEvs)

/-- Top-level steps of `run()` we track: the `get_karpenter_nodes()` call
and each first-pass / retry-pass reroll_node invocation (the retry carries
the `skip_wait` flag it is given). -/
inductive RunEvent
  | selectNodes
  | rerollFirst (name : String)
  | rerollRetry (name : String) (skipWait : Bool)
  deriving DecidableEq

/-- The end-of-run console summary (src/reroll_nodes.py lines 572-579). -/
structure RunSummary where
  total : Nat
  successful : Nat
  failed : Nat
  failedNames : List String
  deriving DecidableEq

/-- Result of a `run()` invocation: the exit code, the tracked steps in
order, and the summary when the per-node passes were reached. -/
structure RunOutcome where
  exitCode : Nat
  events : List RunEvent
  summary : Option RunSummary
  deriving DecidableEq

/-- The first pass `for i, node in enumerate(nodes, 1)` (src/reroll_nodes.py
lines 548-554): every node is processed; the ones whose reroll_node result
is False are collected in order. -/
def firstPassLoop (firstResult : V1Node → Bool) :
    List V1Node → List RunEvent × List V1Node
  | [] => ([], [])
  | n :: rest =>
    let tail := firstPassLoop firstResult rest
    (.rerollFirst n.name :: tail.1,
     if firstResult n then tail.2 else n :: tail.2)

/-- The retry pass `for i, node in enumerate(failed_nodes, 1)`
(src/reroll_nodes.py lines 562-567): `i` counts from 1 and
`skip_wait=(i == len(failed_nodes))`, i.e. from `total`; nodes whose retry
fails contribute their names in order. -/
def retryLoop (retryResult : V1Node → Bool) (total : Nat) :
    Nat → List V1Node → List RunEvent × List String
  | _, [] => ([], [])
  | i, n :: rest =>
    let tail := retryLoop retryResult total (i + 1) rest
    (.rerollRetry n.name (i == total) :: tail.1,
     if retryResult n then tail.2 else n.name :: tail.2)

/-- NodeReroller.run (src/reroll_nodes.py lines 493-583).  `healthList` is
the node-listing outcome seen by check_cluster_health, `selected` the
get_karpenter_nodes result, and `firstResult` / `retryResult` the reported
boolean results of reroll_node on the first and on the retry pass.  A
`TypeError` from a readiness count propagates (run has no handler). -/
def run (dryRun : Bool) (healthList : Except Unit (List V1Node))
    (selected : List V1Node) (firstResult retryResult : V1Node → Bool) :
    Except PyError RunOutcome :=
  match check_cluster_health healthList with
  | .error e => .error e
  | .ok false => .ok ⟨1, [], none⟩
  | .ok true =>
    if selected.isEmpty then .ok ⟨0, [.selectNodes], none⟩
    else if dryRun then .ok ⟨0, [.selectNodes], none⟩
    else
      match readyCountE selected with
      | .error e => .error e
      | .ok _origCount =>
        let firstPass := firstPassLoop firstResult selected
        let retryPass := retryLoop retryResult firstPass.2.length 1 firstPass.2
        let failedAfterRetry := retryPass.2
        let summary : RunSummary :=
          ⟨selected.length, selected.length - failedAfterRetry.length,
           failedAfterRetry.length, failedAfterRetry⟩
        .ok ⟨if failedAfterRetry.isEmpty then 0 else 1,
             .selectNodes :: firstPass.1 ++ retryPass.1, some summary⟩

/-- The names carried by the retry events of a run trace, in order. -/
def retryNamesOf : List RunEvent → List String
  | [] => []
  | RunEvent.rerollRetry n _ :: rest => n :: retryNamesOf rest
  | RunEvent.selectNodes :: rest => retryNamesOf rest
  | RunEvent.rerollFirst _ :: rest => retryNamesOf rest

/-- The `skip_wait` flags carried by the retry events of a run trace, in
order. -/
def retryFlagsOf : List RunEvent → List Bool
  | [] => []
  | RunEvent.rerollRetry _ s :: rest => s :: retryFlagsOf rest
  | RunEvent.selectNodes :: rest => retryFlagsOf rest
  | RunEvent.rerollFirst _ :: rest => retryFlagsOf rest

/-- Step 1 of NodeReroller.get_instance_id_from_node (src/reroll_nodes.py
lines 310-315): parse `spec.provider_id`, which must be truthy, start with
the aws scheme, split into at least two `/`-separated parts whose last part
is an `i-` identifier. -/
def providerIdStep (node : V1Node) : Option String :=
  match node.providerId with
  | none => none
  | some s =>
    if !s.data.isEmpty && pyStartsWith s "aws://" then
      let parts := pySplitOn s '/'
      if decide (2 ≤ parts.length) && pyStartsWith (parts.getLastD "") "i-" then
        some (parts.getLastD "")
      else none
    else none

/-- The `for key in [...]` annotation loop (src/reroll_nodes.py lines
319-324): the first of the two keys that is present with an `i-` value
wins; a present key with a non-`i-` value falls through to the next key. -/
def annotationKeyLoop (anns : List (String × String)) :
    List String → Option String
  | [] => none
  | key :: rest =>
    match dictFind anns key with
    | some v =>
      if pyStartsWith v "i-" then some v else annotationKeyLoop anns rest
    | none => annotationKeyLoop anns rest

/-- Step 2 of get_instance_id_from_node (src/reroll_nodes.py lines
317-324): only entered when `metadata.annotations` is truthy (not None and
not the empty dict). -/
def annotationStep (node : V1Node) : Option String :=
  match node.annotations with
  | none => none
  | some anns =>
    if anns.isEmpty then none
    else
      annotationKeyLoop anns
        ["karpenter.sh/instance-id", "node.kubernetes.io/instance-id"]

/-- Step 3 of get_instance_id_from_node (src/reroll_nodes.py lines
326-345): only with an EC2 client and a truthy address list; only the first
InternalIP address is ever queried (the `break` at line 345 runs whether or
not the lookup succeeded), and the first instance id of the nested
Reservations/Instances response is returned.  A raised lookup exception is
caught (warning) and falls through to `return None`. -/
def ipLookupStep (hasEc2 : Bool)
    (describeByIp : String → Except Unit (List (List String)))
    (node : V1Node) : Option String :=
  if hasEc2 then
    match node.addresses with
    | none => none
    | some addrs =>
      if addrs.isEmpty then none
      else
        match addrs.find? (fun a => a.type == "InternalIP") with
        | none => none
        | some a =>
          match describeByIp a.address with
          | .error _ => none
          | .ok reservations => reservations.flatten.head?
  else none

/-- NodeReroller.get_instance_id_from_node (src/reroll_nodes.py lines
298-348): the three strategies run in order with early return; when all
three produce nothing the function returns None (warning, non-fatal). -/
def get_instance_id_from_node (hasEc2 : Bool)
    (describeByIp : String → Except Unit (List (List String)))
    (node : V1Node) : Option String :=
  match providerIdStep node with
  | some i => some i
  | none =>
    match annotationStep node with
    | some i => some i
    | none => ipLookupStep hasEc2 describeByIp node

/-- A pod already terminating: `metadata.deletion_timestamp` is set. -/
def isTerminatingPod (p : V1Pod) : Bool :=
  p.deletionTimestamp.isSome

/-- A pod owned by a daemon-workload kind (`DaemonSet` owner reference). -/
def isDaemonSetPod (p : V1Pod) : Bool :=
  (p.ownerReferences.getD []).any (fun r => r.kind == "DaemonSet")

/-- A statically-mirrored pod: the `kubernetes.io/config.mirror` annotation
key is present. -/
def isMirrorPod (p : V1Pod) : Bool :=
  match p.annotations with
  | some anns => dictHasKey anns "kubernetes.io/config.mirror"
  | none => false

/-- Concrete fixtures used by witnesses and counterexamples. -/
def readyConditions : List NodeCondition :=
  [⟨"Ready", "True"⟩]

def daemonPod : V1Pod :=
  ⟨"kube-system", "log-agent-1", none, some [⟨"DaemonSet"⟩], none⟩

def terminatingPod : V1Pod :=
  ⟨"default", "old-web-1", some "2025-01-01T00:00:00Z", some [⟨"ReplicaSet"⟩], none⟩

def ordinaryPod : V1Pod :=
  ⟨"default", "web-1", none, some [⟨"ReplicaSet"⟩], none⟩

def readyNode1 : V1Node :=
  ⟨"node-1", some [("karpenter.sh/nodepool", "default")], none, none, none,
   some readyConditions⟩

def readyNode2 : V1Node :=
  ⟨"node-2", some [("karpenter.sh/nodepool", "default")], none, none, none,
   some readyConditions⟩

/-- A node whose `status.conditions` is None. -/
def noCondNode : V1Node :=
  ⟨"node-bad", some [("karpenter.sh/nodepool", "default")], none, none, none,
   none⟩

/-- A node carrying only the v1alpha5 `karpenter.sh/provisioner-name` label,
with the pool name as its value. -/
def alphaOnlyNode : V1Node :=
  ⟨"node-alpha", some [("karpenter.sh/provisioner-name", "pool-a")], none,
   none, none, some readyConditions⟩

def teamNode : V1Node :=
  ⟨"m-1", some [("karpenter.sh/nodepool", "pool-a"), ("team", "platform")],
   none, none, none, some readyConditions⟩

def noTeamNode : V1Node :=
  ⟨"m-2", some [("karpenter.sh/nodepool", "pool-a")], none, none, none,
   some readyConditions⟩

def unmanagedNode : V1Node :=
  ⟨"m-3", some [("team", "platform")], none, none, none, some readyConditions⟩

/-- A node offering all three resolution sources at once, with three
distinct identifiers. -/
def resolverNode : V1Node :=
  ⟨"node-r", none, some [("karpenter.sh/instance-id", "i-0bbb")],
   some "aws:///us-west-2a/i-0aaa", some [⟨"InternalIP", "10.0.0.5"⟩],
   some readyConditions⟩

def describeB (_ : String) : Except Unit (List (List String)) :=
  .ok [["i-0ccc"]]

def allTrue (_ : V1Node) : Bool :=
  true

/-- First-pass outcome of end-to-end scenario B: node-1 succeeds, node-2
fails. -/
def firstB (n : V1Node) : Bool :=
  n.name == "node-1"

def pdbOutcome (_ : V1Pod) : EvictOutcome :=
  .apiException 429

theorem get_karpenter_nodes_eq_filter (selector : List (String × String))
    (nodes : List V1Node) :
    get_karpenter_nodes selector nodes =
      nodes.filter (fun n => hasProvisionerMarker n && matchesSelector selector n) := by
  induction nodes with
  | nil => rfl
  | cons node rest ih =>
    by_cases h3 : selector.isEmpty
    · have hsel : selector = [] := List.isEmpty_iff.mp h3
      subst hsel
      cases h1 : (pyStrip (dictGetD (node.labels.getD []) "karpenter.sh/nodepool" "")).data.isEmpty <;>
      cases h2 : (pyStrip (dictGetD (node.labels.getD []) "karpenter.sh/provisioner-name" "")).data.isEmpty <;>
      simp [get_karpenter_nodes, List.filter_cons, hasProvisionerMarker,
        matchesSelector, h1, h2, ih]
    · cases h1 : (pyStrip (dictGetD (node.labels.getD []) "karpenter.sh/nodepool" "")).data.isEmpty <;>
      cases h2 : (pyStrip (dictGetD (node.labels.getD []) "karpenter.sh/provisioner-name" "")).data.isEmpty <;>
      cases h4 : selector.all (fun kv => dictFind (node.labels.getD []) kv.1 == some kv.2) <;>
      simp [get_karpenter_nodes, List.filter_cons, hasProvisionerMarker,
        matchesSelector, h1, h2, h3, h4, ih]

theorem podsToEvictOf_eq_filter (l : List V1Pod) :
    podsToEvictOf l =
      l.filter (fun p => !(isTerminatingPod p) && !(isDaemonSetPod p) && !(isMirrorPod p)) := by
  induction l with
  | nil => rfl
  | cons p rest ih =>
    cases h1 : p.deletionTimestamp <;>
    cases h2 : (p.ownerReferences.getD []).any (fun r => r.kind == "DaemonSet") <;>
    cases h3 : (match p.annotations with
                | some anns => dictHasKey anns "kubernetes.io/config.mirror"
                | none => false) <;>
    simp [podsToEvictOf, List.filter_cons, isTerminatingPod, isDaemonSetPod,
      isMirrorPod, h1, h2, h3, ih]

theorem drain_node_components (pods : List V1Pod)
    (outcome : V1Pod → EvictOutcome) (polls : List (Except Unit (List V1Pod))) :
    (drain_node false (.ok pods) outcome polls).2.1 =
      (podsToEvictOf pods).map (fun p => (p.ns, p.name)) ∧
    (drain_node false (.ok pods) outcome polls).2.2 =
      (podsToEvictOf pods).map (fun p => evictPod (outcome p) p) ∧
    (podsToEvictOf pods ≠ [] →
      (drain_node false (.ok pods) outcome polls).1 = drainPollLoop polls) := by
  by_cases h : (podsToEvictOf pods).isEmpty
  · have he : podsToEvictOf pods = [] := List.isEmpty_iff.mp h
    simp [drain_node, h, he]
  · have hne : ¬podsToEvictOf pods = [] := by
      intro hend
      simp [hend] at h
    simp [drain_node, h, hne]

theorem drainPollLoop_false_iff (polls : List (Except Unit (List V1Pod)))
    (hok : ∀ e ∈ polls, ∃ l, e = Except.ok l) :
    drainPollLoop polls = false ↔
      ∀ l, Except.ok l ∈ polls → (l.filter keepInPollFilter).isEmpty = false := by
  induction polls with
  | nil => simp [drainPollLoop]
  | cons e rest ih =>
    obtain ⟨l, rfl⟩ := hok e (by simp)
    have ihr := ih (fun e he => hok e (by simp [he]))
    cases hl : (l.filter keepInPollFilter).isEmpty
    · simp only [drainPollLoop, hl]
      rw [if_neg (by simp)]
      rw [ihr]
      constructor
      · intro hall l2 hl2
        rcases List.mem_cons.mp hl2 with heq | hmem
        · exact (Except.ok.inj heq) ▸ hl
        · exact hall l2 hmem
      · intro hall l2 hl2
        exact hall l2 (List.mem_cons_of_mem _ hl2)
    · simp only [drainPollLoop, hl, if_pos rfl]
      constructor
      · intro hcontra
        exact absurd hcontra (by simp)
      · intro hall
        have := hall l (by simp)
        rw [hl] at this
        exact absurd this (by simp)

theorem readyCountE_error_of_none (ns : List V1Node) (n : V1Node)
    (hn : n ∈ ns) (hc : n.conditions = none) :
    readyCountE ns = .error .typeError := by
  induction ns with
  | nil => cases hn
  | cons m rest ih =>
    rcases List.mem_cons.mp hn with heq | hmem
    · subst heq
      simp [readyCountE, nodeReadyE, hc]
    · cases hm : m.conditions with
      | none => simp [readyCountE, nodeReadyE, hm]
      | some cs =>
        simp [readyCountE, nodeReadyE, hm, ih hmem]

theorem readyCountE_ok_of_all_some (ns : List V1Node)
    (h : ∀ n ∈ ns, n.conditions.isSome = true) :
    ∃ k, readyCountE ns = .ok k := by
  induction ns with
  | nil => exact ⟨0, rfl⟩
  | cons m rest ih =>
    obtain ⟨cs, hm⟩ := Option.isSome_iff_exists.mp (h m (by simp))
    obtain ⟨k, hk⟩ := ih (fun n hn => h n (by simp [hn]))
    refine ⟨if cs.any (fun c => c.type == "Ready" && c.status == "True") then k + 1 else k, ?_⟩
    simp [readyCountE, nodeReadyE, hm, hk]

theorem firstPassLoop_spec (f : V1Node → Bool) (l : List V1Node) :
    firstPassLoop f l =
      (l.map (fun n => RunEvent.rerollFirst n.name), l.filter (fun n => !f n)) := by
  induction l with
  | nil => rfl
  | cons n rest ih =>
    cases hf : f n <;> simp [firstPassLoop, List.filter_cons, hf, ih]

theorem retryLoop_snd (r : V1Node → Bool) (t : Nat) (l : List V1Node) :
    ∀ i, (retryLoop r t i l).2 = (l.filter (fun n => !r n)).map V1Node.name := by
  induction l with
  | nil => intro i; rfl
  | cons n rest ih =>
    intro i
    cases hr : r n <;> simp [retryLoop, List.filter_cons, hr, ih (i + 1)]

theorem retryNamesOf_append (xs ys : List RunEvent) :
    retryNamesOf (xs ++ ys) = retryNamesOf xs ++ retryNamesOf ys := by
  induction xs with
  | nil => rfl
  | cons e rest ih => cases e <;> simp [retryNamesOf, ih]

theorem retryFlagsOf_append (xs ys : List RunEvent) :
    retryFlagsOf (xs ++ ys) = retryFlagsOf xs ++ retryFlagsOf ys := by
  induction xs with
  | nil => rfl
  | cons e rest ih => cases e <;> simp [retryFlagsOf, ih]

theorem retryNamesOf_firstMap (l : List V1Node) :
    retryNamesOf (l.map (fun n => RunEvent.rerollFirst n.name)) = [] := by
  induction l with
  | nil => rfl
  | cons n rest ih => simp [retryNamesOf, ih]

theorem retryFlagsOf_firstMap (l : List V1Node) :
    retryFlagsOf (l.map (fun n => RunEvent.rerollFirst n.name)) = [] := by
  induction l with
  | nil => rfl
  | cons n rest ih => simp [retryFlagsOf, ih]

theorem retryNamesOf_retryLoop (r : V1Node → Bool) (t : Nat) (l : List V1Node) :
    ∀ i, retryNamesOf (retryLoop r t i l).1 = l.map V1Node.name := by
  induction l with
  | nil => intro i; rfl
  | cons n rest ih => intro i; simp [retryLoop, retryNamesOf, ih (i + 1)]

theorem retryFlagsOf_retryLoop (r : V1Node → Bool) (t : Nat) (l : List V1Node) :
    ∀ i, retryFlagsOf (retryLoop r t i l).1 =
      (List.range l.length).map (fun j => i + j == t) := by
  induction l with
  | nil => intro i; rfl
  | cons n rest ih =>
    intro i
    simp only [retryLoop, retryFlagsOf, ih (i + 1), List.length_cons,
      List.range_succ_eq_map, List.map_cons, List.map_map]
    congr 1
    apply List.map_congr_left
    intro a _
    have : i + 1 + a = i + (a + 1) := by omega
    simp [Function.comp, this]

/-- C1 counterexample: with an EC2 client and outside dry-run, a terminate
call on which the provider reports `InvalidInstanceID.NotFound` makes
`terminate_ec2_instance` return `false`, not the success (`true`) the claim
asserts: the NotFound branch only logs a warning and then falls through to
`return False`. -/
theorem terminate_not_found_returns_false :
    (terminate_ec2_instance true false
      (.clientError "InvalidInstanceID.NotFound")).1 = false := by
  rfl

/-- C1 (amended): when the compute provider reports the instance as not
found, `terminate_ec2_instance` surfaces no exception (the ClientError is
caught), logs it as a warning rather than an error, and returns `false`;
its caller `delete_node` discards that boolean, so after a successful
Kubernetes node deletion `delete_node` returns `true` whatever the
termination outcome was. -/
theorem terminate_not_found_nonfatal :
    terminate_ec2_instance true false (.clientError "InvalidInstanceID.NotFound")
      = (false, [TermLog.notFoundWarning]) ∧
    ∀ (skipEc2 hasEc2 : Bool) (instId : Option String)
      (termApi : TerminateApiResult) (name : String),
      (delete_node false skipEc2 hasEc2 true instId termApi name).1 = true := by
  refine ⟨rfl, ?_⟩
  intro skipEc2 hasEc2 instId termApi name
  cases skipEc2 <;> cases hasEc2 <;> cases instId <;> simp [delete_node]

/-- C2: in a non-dry-run per-node lifecycle, the control-plane node
deletion call appears in the trace only when the drain step reported
success, and the instance-termination call appears only when both the
drain and the control-plane deletion reported success — and then it sits
strictly after the deletion call in the trace. -/
theorem reroll_node_delete_after_drain
    (skipEc2 hasEc2 cordonOk drainOk k8sDeleteOk waitOk skipWait : Bool)
    (waitBetween : Nat) (instId : Option String)
    (termApi : TerminateApiResult) (name : String) :
    (Event.deleteNodeApi name ∈
        (reroll_node false skipEc2 hasEc2 cordonOk drainOk k8sDeleteOk waitOk
          skipWait waitBetween instId termApi name).2 →
      drainOk = true) ∧
    (∀ i, Event.terminateApi i ∈
        (reroll_node false skipEc2 hasEc2 cordonOk drainOk k8sDeleteOk waitOk
          skipWait waitBetween instId termApi name).2 →
      drainOk = true ∧ k8sDeleteOk = true ∧
      ∃ pre post,
        (reroll_node false skipEc2 hasEc2 cordonOk drainOk k8sDeleteOk waitOk
          skipWait waitBetween instId termApi name).2 =
          pre ++ Event.deleteNodeApi name :: post ∧
        Event.terminateApi i ∈ post) := by
  cases drainOk
  · simp [reroll_node, delete_node]
  · cases k8sDeleteOk
    · simp [reroll_node, delete_node]
    · have htr : (reroll_node false skipEc2 hasEc2 cordonOk true true waitOk
          skipWait waitBetween instId termApi name).2 =
          [Event.cordonApi name, Event.drainStep name] ++
          Event.deleteNodeApi name ::
            ((if !skipEc2 && hasEc2 then
                (match instId with
                 | some i => [Event.terminateApi i]
                 | none => []) else []) ++
             Event.waitReplacement ::
             (if !skipWait && decide (0 < waitBetween) then
               [Event.sleepBetween] else [])) := by
        simp [reroll_node, delete_node]
      rw [htr]
      constructor
      · intro _
        rfl
      · intro i hi
        refine ⟨rfl, rfl,
          [Event.cordonApi name, Event.drainStep name],
          (if !skipEc2 && hasEc2 then
              (match instId with
               | some i => [Event.terminateApi i]
               | none => []) else []) ++
            Event.waitReplacement ::
            (if !skipWait && decide (0 < waitBetween) then
              [Event.sleepBetween] else []),
          rfl, ?_⟩
        simp at hi ⊢
        exact hi

/-- C2 witness: a concrete non-dry-run lifecycle whose trace contains the
termination call; the theorem then yields that drain and control-plane
deletion had reported success. -/
theorem reroll_node_delete_after_drain_witness :
    Event.terminateApi "i-0aaa" ∈
      (reroll_node false false true true true true true false 30
        (some "i-0aaa") (.ok [("running", "shutting-down")]) "node-1").2 ∧
    true = true ∧ true = true := by
  have hmem : Event.terminateApi "i-0aaa" ∈
      (reroll_node false false true true true true true false 30
        (some "i-0aaa") (.ok [("running", "shutting-down")]) "node-1").2 := by
    simp [reroll_node, delete_node]
  obtain ⟨hd, hk, -⟩ :=
    (reroll_node_delete_after_drain false true true true true true false 30
      (some "i-0aaa") (.ok [("running", "shutting-down")]) "node-1").2
      "i-0aaa" hmem
  exact ⟨hmem, hd, hk⟩

theorem run_eq_of_ok (healthList : Except Unit (List V1Node))
    (selected : List V1Node) (f r : V1Node → Bool) (k : Nat)
    (hhealth : check_cluster_health healthList = .ok true)
    (hne : selected.isEmpty = false)
    (hready : readyCountE selected = .ok k) :
    run false healthList selected f r = .ok
      ⟨if (((selected.filter (fun n => !f n)).filter
            (fun n => !r n)).map V1Node.name).isEmpty then 0 else 1,
       RunEvent.selectNodes ::
         selected.map (fun n => RunEvent.rerollFirst n.name) ++
         (retryLoop r (selected.filter (fun n => !f n)).length 1
           (selected.filter (fun n => !f n))).1,
       some ⟨selected.length,
         selected.length -
           ((selected.filter (fun n => !f n)).filter (fun n => !r n)).length,
         ((selected.filter (fun n => !f n)).filter (fun n => !r n)).length,
         ((selected.filter (fun n => !f n)).filter
           (fun n => !r n)).map V1Node.name⟩⟩ := by
  unfold run
  rw [hhealth]
  simp [hne, hready, firstPassLoop_spec, retryLoop_snd, List.length_map]

/-- C3: in a non-dry-run run() that passed the health gate on a non-empty
selection, the retry pass processes exactly the nodes whose first pass
failed, once each, in the order collected; the skip-wait flag is passed
exactly on the last retry item (and a reroll_node call with skip_wait set
emits no inter-node sleep); the exit code is 0 exactly when the retry pass
leaves zero failed nodes and 1 otherwise; and the summary reports the
total, successful and failed counts and the failed node names. -/
theorem run_retry_semantics
    (healthList : Except Unit (List V1Node)) (selected : List V1Node)
    (firstResult retryResult : V1Node → Bool) (k : Nat) (o : RunOutcome)
    (hhealth : check_cluster_health healthList = .ok true)
    (hne : selected.isEmpty = false)
    (hready : readyCountE selected = .ok k)
    (ho : run false healthList selected firstResult retryResult = .ok o) :
    retryNamesOf o.events =
      (selected.filter (fun n => !firstResult n)).map V1Node.name ∧
    retryFlagsOf o.events =
      (List.range (selected.filter (fun n => !firstResult n)).length).map
        (fun j => j + 1 == (selected.filter (fun n => !firstResult n)).length) ∧
    (o.exitCode = 0 ↔
      ∀ n ∈ selected.filter (fun n => !firstResult n), retryResult n = true) ∧
    (o.exitCode = 0 ∨ o.exitCode = 1) ∧
    o.summary = some
      ⟨selected.length,
       selected.length -
         ((selected.filter (fun n => !firstResult n)).filter
           (fun n => !retryResult n)).length,
       ((selected.filter (fun n => !firstResult n)).filter
         (fun n => !retryResult n)).length,
       ((selected.filter (fun n => !firstResult n)).filter
         (fun n => !retryResult n)).map V1Node.name⟩ ∧
    (∀ (dr se he c dro dk w : Bool) (wb : Nat) (ii : Option String)
       (ta : TerminateApiResult) (nm : String),
       Event.sleepBetween ∉
         (reroll_node dr se he c dro dk w true wb ii ta nm).2) := by
  rw [run_eq_of_ok healthList selected firstResult retryResult k hhealth hne hready] at ho
  have ho2 := Except.ok.inj ho
  subst ho2
  refine ⟨?_, ?_, ?_, ?_, ?_, ?_⟩
  · simp [retryNamesOf, retryNamesOf_append, retryNamesOf_firstMap,
      retryNamesOf_retryLoop]
  · simp [retryFlagsOf, retryFlagsOf_append, retryFlagsOf_firstMap,
      retryFlagsOf_retryLoop, Nat.one_add]
  · constructor
    · intro h0 n hn
      by_contra hr
      have hrf : retryResult n = false := by
        cases hrr : retryResult n
        · rfl
        · exact absurd hrr hr
      have hmem : n ∈ (selected.filter (fun n => !firstResult n)).filter
          (fun n => !retryResult n) :=
        List.mem_filter.mpr ⟨hn, by simp [hrf]⟩
      have hne2 : (((selected.filter (fun n => !firstResult n)).filter
          (fun n => !retryResult n)).map V1Node.name).isEmpty = false := by
        cases hflt : (selected.filter (fun n => !firstResult n)).filter
            (fun n => !retryResult n) with
        | nil =>
          rw [hflt] at hmem
          cases hmem
        | cons a as =>
          simp [hflt]
      have h0' : (if (((selected.filter (fun n => !firstResult n)).filter
          (fun n => !retryResult n)).map V1Node.name).isEmpty = true
          then (0 : Nat) else 1) = 0 := h0
      rw [hne2] at h0'
      simp at h0'
    · intro hall
      have hnil : (selected.filter (fun n => !firstResult n)).filter
          (fun n => !retryResult n) = [] := by
        apply List.filter_eq_nil_iff.mpr
        intro a ha
        simp [hall a ha]
      simp [hnil]
  · cases hX : (((selected.filter (fun n => !firstResult n)).filter
        (fun n => !retryResult n)).map V1Node.name).isEmpty
    · right
      simp [hX]
    · left
      simp [hX]
  · rfl
  · intro dr se he c dro dk w wb ii ta nm
    cases dr <;> cases dro <;> cases dk <;> cases se <;> cases he <;>
      cases ii <;> simp [reroll_node, delete_node]

/-- C3 witness: end-to-end scenario B — two selected nodes, node-1 succeeds
and node-2 fails its first pass, the retry (with the skip-wait flag, being
the last retry item) succeeds, so the exit code is 0 and the summary says
total 2, successful 2, failed 0. -/
theorem run_retry_semantics_witness :
    run false (.ok [readyNode1, readyNode2]) [readyNode1, readyNode2]
      firstB allTrue =
      .ok ⟨0, [RunEvent.selectNodes, RunEvent.rerollFirst "node-1",
               RunEvent.rerollFirst "node-2",
               RunEvent.rerollRetry "node-2" true],
           some ⟨2, 2, 0, []⟩⟩ ∧
    retryNamesOf [RunEvent.selectNodes, RunEvent.rerollFirst "node-1",
      RunEvent.rerollFirst "node-2", RunEvent.rerollRetry "node-2" true] =
      ["node-2"] ∧
    retryFlagsOf [RunEvent.selectNodes, RunEvent.rerollFirst "node-1",
      RunEvent.rerollFirst "node-2", RunEvent.rerollRetry "node-2" true] =
      [true] := by
  have hrun : run false (.ok [readyNode1, readyNode2])
      [readyNode1, readyNode2] firstB allTrue =
      .ok ⟨0, [RunEvent.selectNodes, RunEvent.rerollFirst "node-1",
               RunEvent.rerollFirst "node-2",
               RunEvent.rerollRetry "node-2" true],
           some ⟨2, 2, 0, []⟩⟩ := by
    rfl
  obtain ⟨hn, hf, -, -, -, -⟩ :=
    run_retry_semantics (.ok [readyNode1, readyNode2])
      [readyNode1, readyNode2] firstB allTrue 2
      ⟨0, [RunEvent.selectNodes, RunEvent.rerollFirst "node-1",
           RunEvent.rerollFirst "node-2", RunEvent.rerollRetry "node-2" true],
       some ⟨2, 2, 0, []⟩⟩ rfl rfl rfl hrun
  exact ⟨hrun, hn.trans rfl, hf.trans rfl⟩

/-- C4 counterexample: for the three-pod node of the claim (one DaemonSet
pod, one pod with a deletion timestamp, one ordinary pod), drain issues
exactly one eviction — for the ordinary pod — yet when the subsequent
listing no longer contains the ordinary pod but still shows the
already-terminating pod, drain does NOT report success: the polling filter
(src/reroll_nodes.py lines 271-280) keeps terminating pods, so the claim's
"success once that pod disappears from subsequent listings" is false. -/
theorem drain_scenario_counterexample :
    (drain_node false (.ok [daemonPod, terminatingPod, ordinaryPod])
      (fun _ => .success) [.ok [daemonPod, terminatingPod]]).2.1 =
      [("default", "web-1")] ∧
    (drain_node false (.ok [daemonPod, terminatingPod, ordinaryPod])
      (fun _ => .success) [.ok [daemonPod, terminatingPod]]).1 = false := by
  exact ⟨rfl, rfl⟩

/-- C4 (amended): drain issues eviction requests exactly for the pods on
the node that are not already terminating, not DaemonSet-owned, and not
mirror pods; in the three-pod scenario it issues exactly one eviction (the
ordinary pod) and reports success once every non-DaemonSet non-mirror pod
— the ordinary pod AND the already-terminating one — has disappeared from
a subsequent listing. -/
theorem drain_evicts_exactly_filtered :
    (∀ (pods : List V1Pod) (outcome : V1Pod → EvictOutcome)
       (polls : List (Except Unit (List V1Pod))),
       (drain_node false (.ok pods) outcome polls).2.1 =
         (pods.filter (fun p => !(isTerminatingPod p) && !(isDaemonSetPod p) &&
           !(isMirrorPod p))).map (fun p => (p.ns, p.name))) ∧
    drain_node false (.ok [daemonPod, terminatingPod, ordinaryPod])
      (fun _ => .success) [.ok [daemonPod]] =
      (true, [("default", "web-1")], [.evictedDebug "default" "web-1"]) := by
  constructor
  · intro pods outcome polls
    rw [(drain_node_components pods outcome polls).1, podsToEvictOf_eq_filter]
  · rfl

/-- C5: a pod whose eviction is rejected with the disruption-budget status
(ApiException 429, caught by the handler) contributes a warning log line
and nothing else: the drain result is exactly the polling-loop result,
independent of the eviction outcomes, and — when every re-listing succeeds
— drain returns failure precisely when every poll until the timeout still
shows filtered pods. -/
theorem drain_pdb_rejection_nonfatal
    (pods : List V1Pod) (outcome outcome2 : V1Pod → EvictOutcome)
    (polls : List (Except Unit (List V1Pod))) (p : V1Pod)
    (hp : p ∈ podsToEvictOf pods)
    (hpdb : outcome p = .apiException 429) :
    DrainLog.pdbPreventedWarning p.ns p.name ∈
      (drain_node false (.ok pods) outcome polls).2.2 ∧
    (drain_node false (.ok pods) outcome polls).1 = drainPollLoop polls ∧
    (drain_node false (.ok pods) outcome2 polls).1 = drainPollLoop polls ∧
    ((∀ e ∈ polls, ∃ l, e = Except.ok l) →
      ((drain_node false (.ok pods) outcome polls).1 = false ↔
        ∀ l, Except.ok l ∈ polls →
          (l.filter keepInPollFilter).isEmpty = false)) := by
  have hne : podsToEvictOf pods ≠ [] := by
    intro hnil
    rw [hnil] at hp
    cases hp
  obtain ⟨hev, hlog, hfst⟩ := drain_node_components pods outcome polls
  obtain ⟨-, -, hfst2⟩ := drain_node_components pods outcome2 polls
  refine ⟨?_, hfst hne, hfst2 hne, ?_⟩
  · rw [hlog]
    have hm : evictPod (outcome p) p ∈
        (podsToEvictOf pods).map (fun q => evictPod (outcome q) q) :=
      List.mem_map_of_mem _ hp
    rw [hpdb] at hm
    simpa [evictPod] using hm
  · intro hok
    rw [hfst hne]
    exact drainPollLoop_false_iff polls hok

/-- C5 witness: a single ordinary pod whose eviction is rejected with the
disruption-budget status; the warning is logged and the drain result is
the polling result (here: failure, since the pod is still listed when the
timeout ends). -/
theorem drain_pdb_rejection_nonfatal_witness :
    DrainLog.pdbPreventedWarning "default" "web-1" ∈
      (drain_node false (.ok [ordinaryPod]) pdbOutcome
        [.ok [ordinaryPod]]).2.2 ∧
    (drain_node false (.ok [ordinaryPod]) pdbOutcome [.ok [ordinaryPod]]).1 =
      drainPollLoop [.ok [ordinaryPod]] := by
  obtain ⟨h1, h2, -, -⟩ :=
    drain_pdb_rejection_nonfatal [ordinaryPod] pdbOutcome pdbOutcome
      [.ok [ordinaryPod]] ordinaryPod (by simp [podsToEvictOf, ordinaryPod]) rfl
  exact ⟨h1, h2⟩

/-- C6: get_karpenter_nodes returns exactly the sublist — in listing order
— of nodes that carry a non-empty (after trimming) provisioner marker
under either accepted label name and, when criteria are given, carry every
criteria key with exactly the required value; a node missing a criteria
key is excluded. -/
theorem select_marked_matching_in_order
    (selector : List (String × String)) (nodes : List V1Node) :
    get_karpenter_nodes selector nodes =
      nodes.filter (fun n => hasProvisionerMarker n &&
        matchesSelector selector n) ∧
    (get_karpenter_nodes selector nodes).Sublist nodes ∧
    (∀ n ∈ get_karpenter_nodes selector nodes,
      hasProvisionerMarker n = true ∧
      ∀ kv ∈ selector, dictFind (n.labels.getD []) kv.1 = some kv.2) := by
  refine ⟨get_karpenter_nodes_eq_filter selector nodes, ?_, ?_⟩
  · rw [get_karpenter_nodes_eq_filter selector nodes]
    exact List.filter_sublist nodes
  · intro n hn
    rw [get_karpenter_nodes_eq_filter selector nodes] at hn
    have hcond := (List.mem_filter.mp hn).2
    have hmarker : hasProvisionerMarker n = true :=
      (Bool.and_eq_true_iff.mp hcond).1
    have hsel : matchesSelector selector n = true :=
      (Bool.and_eq_true_iff.mp hcond).2
    refine ⟨hmarker, ?_⟩
    intro kv hkv
    have := List.all_eq_true.mp hsel kv hkv
    exact eq_of_beq this

/-- C6 witness: with criteria team=platform, only the marked node carrying
team=platform is selected; the marked node missing the team label and the
unmarked node are excluded. -/
theorem select_marked_matching_witness :
    get_karpenter_nodes [("team", "platform")]
      [teamNode, noTeamNode, unmanagedNode] = [teamNode] ∧
    hasProvisionerMarker teamNode = true := by
  obtain ⟨heq, -, hmem⟩ :=
    select_marked_matching_in_order [("team", "platform")]
      [teamNode, noTeamNode, unmanagedNode]
  have hval : get_karpenter_nodes [("team", "platform")]
      [teamNode, noTeamNode, unmanagedNode] = [teamNode] :=
    heq.trans (by decide)
  refine ⟨hval, ?_⟩
  exact (hmem teamNode (by rw [hval]; simp)).1

/-- C7: check_cluster_health yields false when the ready-node count is
below 2 (so for 0 or 1) and true when at least 2 are ready; a failed
node-list query also yields false; and whenever the health check is false,
run() returns exit code 1 with an empty step trace — in particular the
node-selection step never appears. -/
theorem health_gate_and_run_gating
    (ns : List V1Node) (k : Nat) (hk : readyCountE ns = .ok k) :
    (k < 2 → check_cluster_health (.ok ns) = .ok false) ∧
    (2 ≤ k → check_cluster_health (.ok ns) = .ok true) ∧
    check_cluster_health (.error ()) = .ok false ∧
    (∀ (dryRun : Bool) (healthList : Except Unit (List V1Node))
       (selected : List V1Node) (f r : V1Node → Bool),
       check_cluster_health healthList = .ok false →
       run dryRun healthList selected f r = .ok ⟨1, [], none⟩ ∧
       RunEvent.selectNodes ∉ (⟨1, [], none⟩ : RunOutcome).events) := by
  refine ⟨?_, ?_, rfl, ?_⟩
  · intro hlt
    simp [check_cluster_health, hk, hlt]
  · intro hge
    have hnlt : ¬k < 2 := Nat.not_lt.mpr hge
    simp [check_cluster_health, hk, hnlt]
  · intro dryRun healthList selected f r hfalse
    constructor
    · unfold run
      rw [hfalse]
    · simp

/-- C7 witness: with a single ready node the health gate refuses, and run
exits 1 without the selection step. -/
theorem health_gate_and_run_gating_witness :
    check_cluster_health (.ok [readyNode1]) = .ok false ∧
    run false (.ok [readyNode1]) [readyNode1, readyNode2] allTrue allTrue =
      .ok ⟨1, [], none⟩ := by
  obtain ⟨h1, -, -, h4⟩ := health_gate_and_run_gating [readyNode1] 1 rfl
  have hf : check_cluster_health (.ok [readyNode1]) = .ok false :=
    h1 (by decide)
  exact ⟨hf, (h4 false (.ok [readyNode1]) [readyNode1, readyNode2]
    allTrue allTrue hf).1⟩

/-- C8: get_instance_id_from_node runs the provider-id parse, the two
well-known annotations and the EC2 private-IP lookup in that order with
first match winning: a provider-id identifier beats an annotation one,
an annotation beats the IP lookup, and when all three fail the result is
none. -/
theorem resolver_strategy_order
    (hasEc2 : Bool) (describeByIp : String → Except Unit (List (List String)))
    (node : V1Node) :
    (∀ i, providerIdStep node = some i →
      get_instance_id_from_node hasEc2 describeByIp node = some i) ∧
    (providerIdStep node = none → ∀ i, annotationStep node = some i →
      get_instance_id_from_node hasEc2 describeByIp node = some i) ∧
    (providerIdStep node = none → annotationStep node = none →
      get_instance_id_from_node hasEc2 describeByIp node =
        ipLookupStep hasEc2 describeByIp node) := by
  refine ⟨?_, ?_, ?_⟩
  · intro i hi
    simp [get_instance_id_from_node, hi]
  · intro h1 i hi
    simp [get_instance_id_from_node, h1, hi]
  · intro h1 h2
    simp [get_instance_id_from_node, h1, h2]

/-- C8 witness: a node carrying all three sources at once — a parseable
provider id (i-0aaa), an instance-id annotation (i-0bbb) and an internal
IP that the EC2 lookup would resolve (i-0ccc) — resolves to the
provider-id-derived identifier. -/
theorem resolver_strategy_order_witness :
    get_instance_id_from_node true describeB resolverNode = some "i-0aaa" ∧
    annotationStep resolverNode = some "i-0bbb" ∧
    ipLookupStep true describeB resolverNode = some "i-0ccc" := by
  obtain ⟨h1, -, -⟩ := resolver_strategy_order true describeB resolverNode
  exact ⟨h1 "i-0aaa" (by decide), by decide, by decide⟩

/-- C9: the readiness counting in check_cluster_health, in the
wait_for_replacement polling loop and in run()'s original-ready-count
computation raises an uncaught TypeError as soon as some listed node has a
None conditions collection — only an ApiException on the list call itself
is caught (yielding false from the health check) — and the count is total
exactly when every listed node carries a conditions list. -/
theorem ready_counting_requires_conditions
    (ns : List V1Node) (n : V1Node) (hn : n ∈ ns)
    (hc : n.conditions = none) :
    readyCountE ns = .error .typeError ∧
    check_cluster_health (.ok ns) = .error .typeError ∧
    (∀ (c : Nat) (rest : List (List V1Node)),
      wait_for_replacement false c (ns :: rest) = .error .typeError) ∧
    (∀ (healthList : Except Unit (List V1Node)) (f r : V1Node → Bool),
      check_cluster_health healthList = .ok true →
      run false healthList ns f r = .error .typeError) ∧
    check_cluster_health (.error ()) = .ok false ∧
    (∀ ms : List V1Node, (∀ m ∈ ms, m.conditions.isSome = true) →
      ∃ k, readyCountE ms = .ok k) := by
  have herr : readyCountE ns = .error .typeError :=
    readyCountE_error_of_none ns n hn hc
  refine ⟨herr, ?_, ?_, ?_, rfl, readyCountE_ok_of_all_some⟩
  · simp [check_cluster_health, herr]
  · intro c rest
    simp [wait_for_replacement, waitReplacementLoop, herr]
  · intro healthList f r hh
    have hne : ns.isEmpty = false := by
      cases hns : ns with
      | nil =>
        rw [hns] at hn
        cases hn
      | cons a as => rfl
    unfold run
    rw [hh]
    simp [hne, herr]

/-- C9 witness: a listing containing a node whose status has no conditions
list makes the ready count, the health check, the replacement wait and
run() itself fail with the uncaught TypeError. -/
theorem ready_counting_requires_conditions_witness :
    readyCountE [readyNode1, noCondNode] = .error .typeError ∧
    check_cluster_health (.ok [readyNode1, noCondNode]) =
      .error .typeError ∧
    wait_for_replacement false 1 [[readyNode1, noCondNode]] =
      .error .typeError ∧
    run false (.ok [readyNode1, readyNode2]) [readyNode1, noCondNode]
      allTrue allTrue = .error .typeError := by
  obtain ⟨h1, h2, h3, h4, -, -⟩ :=
    ready_counting_requires_conditions [readyNode1, noCondNode] noCondNode
      (by simp) rfl
  exact ⟨h1, h2, h3 1 [], h4 (.ok [readyNode1, readyNode2])
    allTrue allTrue rfl⟩

/-- C10: the --nodepool restriction produces the selector requiring the
label karpenter.sh/nodepool to equal the pool name exactly, so a node
that lacks that label is excluded from selection even when it carries the
karpenter.sh/provisioner-name marker with the requested pool name as its
value. -/
theorem nodepool_restriction_excludes_provisioner_only_nodes
    (pool : String) (nodes : List V1Node) (n : V1Node)
    (hnp : dictFind (n.labels.getD []) "karpenter.sh/nodepool" = none)
    (halpha : dictFind (n.labels.getD [])
      "karpenter.sh/provisioner-name" = some pool) :
    n ∉ get_karpenter_nodes (selectorFromNodepool pool) nodes := by
  intro hmem
  rw [get_karpenter_nodes_eq_filter] at hmem
  have hcond := (List.mem_filter.mp hmem).2
  have hsel : matchesSelector (selectorFromNodepool pool) n = true :=
    (Bool.and_eq_true_iff.mp hcond).2
  have := List.all_eq_true.mp hsel ("karpenter.sh/nodepool", pool) (by simp [selectorFromNodepool])
  rw [hnp] at this
  cases this

/-- C10 witness: a node labelled only karpenter.sh/provisioner-name=pool-a
is excluded by the selector built from --nodepool pool-a, although it
carries the provisioner marker (with the requested pool as value). -/
theorem nodepool_restriction_excludes_witness :
    alphaOnlyNode ∉
      get_karpenter_nodes (selectorFromNodepool "pool-a") [alphaOnlyNode] ∧
    hasProvisionerMarker alphaOnlyNode = true := by
  exact ⟨nodepool_restriction_excludes_provisioner_only_nodes "pool-a"
    [alphaOnlyNode] alphaOnlyNode rfl rfl, by decide⟩
